import Mathlib

/-!
Shallow embedding of `task_manager.py` (puppe1990/task-timer-manager).

Modelling conventions:
- Python floats (hours, `time.time()` epoch seconds) are modelled as `ℚ`
  (exact arithmetic; float rounding is abstracted away).
- `datetime.now().isoformat()` timestamp strings stored in `created_at`,
  `updated_at` and `completed_at` are opaque `String`s supplied to each
  operation as a parameter `nIso` (the wall clock at the moment of call).
- `time.time()` is supplied as a parameter `now : ℚ` (epoch seconds).
- `datetime.now()` used by `is_overdue` is supplied as a `DateTime` value.
- Python truthiness is modelled faithfully: the guard
  `if self.timer_running and self.timer_start_time:` is false when
  `timer_start_time` is `None` **or** the float `0.0`; likewise
  `if not self.deadline` is true for `None` and for the empty string.
-/

namespace TaskTimer

/-- A calendar instant as produced by `datetime.fromisoformat`: year, month,
day, hour, minute, second (microseconds are irrelevant to this code). -/
structure DateTime where
  year : ℕ
  month : ℕ
  day : ℕ
  hour : ℕ
  minute : ℕ
  second : ℕ
deriving DecidableEq, Repr

/-- Injective monotone key for comparing `DateTime`s whose fields are in
their calendar ranges; mirrors `datetime` comparison. -/
def DateTime.toKey (d : DateTime) : ℕ :=
  ((((d.year * 13 + d.month) * 32 + d.day) * 24 + d.hour) * 60 + d.minute) * 60 + d.second

/-- Value of a decimal digit character, `none` on a non-digit. -/
def digitVal (c : Char) : Option ℕ :=
  if c.isDigit then some (c.toNat - 48) else none

/-- Two-digit decimal number from two characters. -/
def parse2 (a b : Char) : Option ℕ := do
  let x ← digitVal a
  let y ← digitVal b
  pure (10 * x + y)

/-- Four-digit decimal number from four characters. -/
def parse4 (a b c d : Char) : Option ℕ := do
  let x ← digitVal a
  let y ← digitVal b
  let z ← digitVal c
  let w ← digitVal d
  pure (1000 * x + 100 * y + 10 * z + w)

/-- Fragment of `datetime.fromisoformat` restricted to the `YYYY-MM-DD`
date-only strings this application stores in `deadline` (the front end
validates deadlines with `strptime(deadline, "%Y-%m-%d")` before they reach
the record). Any other string is treated as a parse failure. A date-only
string parses to midnight at the START of that day (hour = minute =
second = 0), exactly as `datetime.fromisoformat` does. -/
def parseIsoDate (s : String) : Option DateTime :=
  match s.toList with
  | [y1, y2, y3, y4, c1, mo1, mo2, c2, d1, d2] =>
    if c1 = '-' ∧ c2 = '-' then do
      let y ← parse4 y1 y2 y3 y4
      let mo ← parse2 mo1 mo2
      let da ← parse2 d1 d2
      if 1 ≤ mo ∧ mo ≤ 12 ∧ 1 ≤ da ∧ da ≤ 31 then
        some ⟨y, mo, da, 0, 0, 0⟩
      else none
    else none
  | _ => none

/-- One task, with the fields of `Task.__init__` in source order.
`timer_start_time` is `Option ℚ` (epoch seconds or `None`). -/
structure Task where
  id : String
  title : String
  description : String
  project : String
  category : String
  estimated_hours : ℚ
  actual_hours : ℚ
  deadline : Option String
  created_at : String
  updated_at : String
  status : String
  completed_at : Option String
  timer_start_time : Option ℚ
  timer_running : Bool
  session_time : ℚ
deriving DecidableEq, Repr

/-- `Task.__init__`: the generated id is passed in as `tid` (the source
generates it from the wall clock); every other field is initialised exactly
as in the constructor. -/
def mkTask (tid title description project category : String)
    (estimated_hours : ℚ) (deadline : Option String) (nIso : String) : Task :=
  { id := tid
    title := title
    description := description
    project := project
    category := category
    estimated_hours := estimated_hours
    actual_hours := 0
    deadline := deadline
    created_at := nIso
    updated_at := nIso
    status := "Not Started"
    completed_at := none
    timer_start_time := none
    timer_running := false
    session_time := 0 }

/-- `Task.add_time`: adds to `actual_hours` and stamps `updated_at` only
when `hours > 0`; otherwise the record is unchanged. -/
def add_time (t : Task) (hours : ℚ) (nIso : String) : Task :=
  if 0 < hours then
    { t with actual_hours := t.actual_hours + hours, updated_at := nIso }
  else t

/-- `Task.start_timer`: starts a session when idle, returns whether the
start took effect. -/
def start_timer (t : Task) (now : ℚ) (nIso : String) : Task × Bool :=
  if t.timer_running = false then
    ({ t with timer_start_time := some now, timer_running := true, updated_at := nIso }, true)
  else (t, false)

/-- `Task.stop_timer`: the guard `self.timer_running and self.timer_start_time`
is modelled with Python float truthiness (`0.0` is falsy), so the closing
branch runs only when the flag is set and the start is a non-zero instant. -/
def stop_timer (t : Task) (now : ℚ) (nIso : String) : Task × ℚ :=
  match t.timer_start_time with
  | some s =>
    if t.timer_running = true ∧ s ≠ 0 then
      let elapsed_hours := (now - s) / 3600
      ({ t with session_time := t.session_time + elapsed_hours
                actual_hours := t.actual_hours + elapsed_hours
                timer_running := false
                timer_start_time := none
                updated_at := nIso }, elapsed_hours)
    else (t, 0)
  | none => (t, 0)

/-- `Task.restart_timer`: stop, then start; returns the closed session's
elapsed hours. -/
def restart_timer (t : Task) (now : ℚ) (nIso : String) : Task × ℚ :=
  let r := stop_timer t now nIso
  ((start_timer r.1 now nIso).1, r.2)

/-- `Task.get_total_time`: cumulative hours, including the live session when
the timer is (truthily) running. -/
def get_total_time (t : Task) (now : ℚ) : ℚ :=
  match t.timer_start_time with
  | some s =>
    if t.timer_running = true ∧ s ≠ 0 then t.actual_hours + (now - s) / 3600
    else t.actual_hours
  | none => t.actual_hours

/-- `Task.get_current_session_time`: accumulated session hours plus the live
segment when running. -/
def get_current_session_time (t : Task) (now : ℚ) : ℚ :=
  match t.timer_start_time with
  | some s =>
    if t.timer_running = true ∧ s ≠ 0 then t.session_time + (now - s) / 3600
    else t.session_time
  | none => t.session_time

/-- The `valid_statuses` list of `Task.update_status`. -/
def valid_statuses : List String :=
  ["Not Started", "In Progress", "Completed", "On Hold"]

/-- `Task.update_status`: ignores values outside `valid_statuses`; stamps
`completed_at` whenever the new status is `"Completed"`. -/
def update_status (t : Task) (status nIso : String) : Task :=
  if status ∈ valid_statuses then
    { t with status := status
             updated_at := nIso
             completed_at := if status = "Completed" then some nIso else t.completed_at }
  else t

/-- `Task.is_overdue`: `not self.deadline` is true for `None` and the empty
string; an unparsable deadline yields `False`; otherwise strictly compare
`datetime.now()` with the parsed deadline. -/
def is_overdue (t : Task) (nowDt : DateTime) : Bool :=
  match t.deadline with
  | none => false
  | some d =>
    if d.isEmpty ∨ t.status = "Completed" then false
    else
      match parseIsoDate d with
      | none => false
      | some dl => decide (dl.toKey < nowDt.toKey)

/-- `Task.get_progress_percentage`. -/
def get_progress_percentage (t : Task) (now : ℚ) : ℚ :=
  if t.estimated_hours = 0 then 0
  else min 100 (get_total_time t now / t.estimated_hours * 100)

/-- The dictionary produced by `Task.to_dict`: exactly the fields it emits,
in source order. Note `timer_start_time` is NOT serialized. -/
structure TaskDict where
  id : String
  title : String
  description : String
  project : String
  category : String
  estimated_hours : ℚ
  actual_hours : ℚ
  deadline : Option String
  created_at : String
  updated_at : String
  status : String
  completed_at : Option String
  timer_running : Bool
  session_time : ℚ
deriving DecidableEq, Repr

/-- `Task.to_dict`. -/
def to_dict (t : Task) : TaskDict :=
  { id := t.id
    title := t.title
    description := t.description
    project := t.project
    category := t.category
    estimated_hours := t.estimated_hours
    actual_hours := t.actual_hours
    deadline := t.deadline
    created_at := t.created_at
    updated_at := t.updated_at
    status := t.status
    completed_at := t.completed_at
    timer_running := t.timer_running
    session_time := t.session_time }

/-- `Task.from_dict`: every stored field is copied back onto the record;
`timer_start_time` is reset to `None` (the source comment says "Reset timer
state when loading from file"), while `timer_running` is taken from the
stored value. -/
def from_dict (d : TaskDict) : Task :=
  { id := d.id
    title := d.title
    description := d.description
    project := d.project
    category := d.category
    estimated_hours := d.estimated_hours
    actual_hours := d.actual_hours
    deadline := d.deadline
    created_at := d.created_at
    updated_at := d.updated_at
    status := d.status
    completed_at := d.completed_at
    timer_start_time := none
    timer_running := d.timer_running
    session_time := d.session_time }

/-- `TaskManager.get_task_by_id`: first task with the given id, if any.
The manager's task list is passed explicitly. -/
def get_task_by_id (tasks : List Task) (task_id : String) : Option Task :=
  tasks.find? (fun t => t.id = task_id)

/-- One `key=value` pair of the `**kwargs` of `TaskManager.update_task`,
typed per attribute. `unknown_key` stands for any key that is not an
attribute of `Task` (`hasattr` is false), which the source skips. -/
inductive FieldUpdate where
  | set_id (v : String)
  | set_title (v : String)
  | set_actual_hours (v : ℚ)
  | set_timer_running (v : Bool)
  | set_created_at (v : String)
  | unknown_key
deriving DecidableEq, Repr

/-- `setattr(task, key, value)` for one kwarg; unknown keys are ignored. -/
def applyField (t : Task) (u : FieldUpdate) : Task :=
  match u with
  | .set_id v => { t with id := v }
  | .set_title v => { t with title := v }
  | .set_actual_hours v => { t with actual_hours := v }
  | .set_timer_running v => { t with timer_running := v }
  | .set_created_at v => { t with created_at := v }
  | .unknown_key => t

/-- `TaskManager.update_task`: applies every kwarg to the first task whose
id matches (via `setattr`, no validation), stamps `updated_at`, and returns
whether a match was found. -/
def update_task (tasks : List Task) (task_id : String) (changes : List FieldUpdate)
    (nIso : String) : List Task × Bool :=
  match tasks with
  | [] => ([], false)
  | t :: rest =>
    if t.id = task_id then
      ({ changes.foldl applyField t with updated_at := nIso } :: rest, true)
    else
      let r := update_task rest task_id changes nIso
      (t :: r.1, r.2)

/-- Python `str.lower()`, written so the kernel can evaluate it on literals
(`String.toLower` itself does not kernel-reduce): lower-case every character. -/
def strLower (s : String) : String := ⟨s.data.map Char.toLower⟩

/-- `TaskManager.get_tasks_by_status` (case-insensitive match via `.lower()`). -/
def get_tasks_by_status (tasks : List Task) (status : String) : List Task :=
  tasks.filter (fun t => strLower t.status = strLower status)

/-- `TaskManager.get_overdue_tasks`. -/
def get_overdue_tasks (tasks : List Task) (nowDt : DateTime) : List Task :=
  tasks.filter (fun t => is_overdue t nowDt)

/-- `TaskManager.get_running_timers`. -/
def get_running_timers (tasks : List Task) : List Task :=
  tasks.filter (fun t => t.timer_running)

/-- The dictionary returned by `TaskManager.get_statistics`. -/
structure Stats where
  total_tasks : ℕ
  completed_tasks : ℕ
  overdue_tasks : ℕ
  running_timers : ℕ
  total_estimated_hours : ℚ
  total_actual_hours : ℚ
  completion_rate : ℚ
deriving DecidableEq, Repr

/-- `TaskManager.get_statistics`: `nowDt` is the `datetime.now()` read used
by overdue checks, `now` the `time.time()` read used by `get_total_time`. -/
def get_statistics (tasks : List Task) (nowDt : DateTime) (now : ℚ) : Stats :=
  let total_tasks := tasks.length
  let completed_tasks := (get_tasks_by_status tasks "Completed").length
  let overdue_tasks := (get_overdue_tasks tasks nowDt).length
  let running_timers := (get_running_timers tasks).length
  let total_estimated_hours := (tasks.map (fun t => t.estimated_hours)).sum
  let total_actual_hours := (tasks.map (fun t => get_total_time t now)).sum
  { total_tasks := total_tasks
    completed_tasks := completed_tasks
    overdue_tasks := overdue_tasks
    running_timers := running_timers
    total_estimated_hours := total_estimated_hours
    total_actual_hours := total_actual_hours
    completion_rate :=
      if total_tasks > 0 then (completed_tasks : ℚ) / (total_tasks : ℚ) * 100 else 0 }

/-- Task states reachable through the record's own public operations
(`__init__`, `add_time`, `start_timer`, `stop_timer`, `restart_timer`,
`update_status`) and through loading a record from a snapshot
(`from_dict` on an arbitrary stored dictionary). -/
inductive Reachable : Task → Prop where
  | init (tid title description project category : String)
      (estimated_hours : ℚ) (deadline : Option String) (nIso : String) :
      Reachable (mkTask tid title description project category estimated_hours deadline nIso)
  | add {t : Task} (hours : ℚ) (nIso : String) :
      Reachable t → Reachable (add_time t hours nIso)
  | start {t : Task} (now : ℚ) (nIso : String) :
      Reachable t → Reachable (start_timer t now nIso).1
  | stop {t : Task} (now : ℚ) (nIso : String) :
      Reachable t → Reachable (stop_timer t now nIso).1
  | restart {t : Task} (now : ℚ) (nIso : String) :
      Reachable t → Reachable (restart_timer t now nIso).1
  | upd {t : Task} (status nIso : String) :
      Reachable t → Reachable (update_status t status nIso)
  | load (d : TaskDict) : Reachable (from_dict d)

/-- Modelled from the spec: the overdue check as the spec's words describe
it, with the deadline "treated as an end-of-day boundary" — identical to
`is_overdue` except that the comparison instant is the last second of the
parsed deadline date. Used to compare the spec's description with the
source's `is_overdue`. -/
def is_overdue_end_of_day (t : Task) (nowDt : DateTime) : Bool :=
  match t.deadline with
  | none => false
  | some d =>
    if d.isEmpty ∨ t.status = "Completed" then false
    else
      match parseIsoDate d with
      | none => false
      | some dl =>
        decide ((DateTime.mk dl.year dl.month dl.day 23 59 59).toKey < nowDt.toKey)

/-- Concrete idle task used by witnesses and counterexamples. -/
def sampleTask : Task :=
  { id := "task_20240101_000000_000000"
    title := "write report"
    description := ""
    project := "General"
    category := "General"
    estimated_hours := 10
    actual_hours := 2
    deadline := none
    created_at := "2024-01-01T00:00:00"
    updated_at := "2024-01-01T00:00:00"
    status := "Not Started"
    completed_at := none
    timer_start_time := none
    timer_running := false
    session_time := 0 }

/-- Concrete task whose timer was started at epoch second 3600:
`start_timer` applied to a freshly constructed task. -/
def startedTask : Task :=
  (start_timer (mkTask "task_1" "t" "" "General" "General" 10 none "c") 3600 "s").1

/-- The record obtained by saving `startedTask` while its timer runs and
loading it back: `timer_running` is still `true` but `timer_start_time`
is `none`. -/
def stuckTask : Task := from_dict (to_dict startedTask)

/-- Concrete incomplete task with a date-only deadline. -/
def overdueSampleTask : Task :=
  { sampleTask with deadline := some "2024-01-15", status := "In Progress" }

/-- Noon on the deadline day of `overdueSampleTask`. -/
def middayJan15 : DateTime := ⟨2024, 1, 15, 12, 0, 0⟩

/-- Concrete task already completed on 2024-01-02. -/
def completedTask : Task :=
  { sampleTask with status := "Completed", completed_at := some "2024-01-02T00:00:00" }

/-- C1 (counterexample): a task whose timer was started at epoch second
3600 is saved while running (say at epoch second 7200, one hour into the
session) and loaded back. The claim requires the loaded record to have
`timer_running = false` and the elapsed hour folded into
`actual_hours`/`session_time` (`actual_hours = 0 + 1`). Instead the loaded
record still has `timer_running = true`, and `actual_hours` and
`session_time` are unchanged at 0: `to_dict` never folds in the live
session and `from_dict` copies the stored `timer_running` verbatim. -/
theorem c1_round_trip_counterexample :
    (from_dict (to_dict startedTask)).timer_running ≠ false ∧
    (from_dict (to_dict startedTask)).actual_hours ≠
      startedTask.actual_hours + ((7200 : ℚ) - 3600) / 3600 ∧
    (from_dict (to_dict startedTask)).session_time = 0 := by
  refine ⟨by decide, ?_, rfl⟩
  show (0 : ℚ) ≠ 0 + ((7200 : ℚ) - 3600) / 3600
  norm_num

/-- C1 (amended): a snapshot round-trip reproduces every field of the
record except `timer_start_time`, which is cleared to `none`; in
particular `timer_running` keeps its saved value and no elapsed session
time is added anywhere. -/
theorem round_trip_clears_start_only (t : Task) :
    from_dict (to_dict t) = { t with timer_start_time := none } := rfl

/-- Helper: `add_time` does not touch the timer fields. -/
theorem add_time_consistent (t : Task) (hours : ℚ) (nIso : String)
    (h : t.timer_start_time ≠ none → t.timer_running = true) :
    (add_time t hours nIso).timer_start_time ≠ none →
      (add_time t hours nIso).timer_running = true := by
  unfold add_time
  split
  · exact h
  · exact h

/-- Helper: `start_timer` sets the start instant and the flag together. -/
theorem start_timer_consistent (t : Task) (now : ℚ) (nIso : String)
    (h : t.timer_start_time ≠ none → t.timer_running = true) :
    (start_timer t now nIso).1.timer_start_time ≠ none →
      (start_timer t now nIso).1.timer_running = true := by
  unfold start_timer
  split
  · intro _; rfl
  · exact h

/-- Helper: `stop_timer` clears the start instant and the flag together. -/
theorem stop_timer_consistent (t : Task) (now : ℚ) (nIso : String)
    (h : t.timer_start_time ≠ none → t.timer_running = true) :
    (stop_timer t now nIso).1.timer_start_time ≠ none →
      (stop_timer t now nIso).1.timer_running = true := by
  cases hs : t.timer_start_time with
  | none => simp [stop_timer, hs]
  | some s =>
    by_cases hc : t.timer_running = true ∧ s ≠ 0
    · simp [stop_timer, hs, hc]
    · simp [stop_timer, hs, hc]
      exact h (by rw [hs]; exact Option.some_ne_none s)

/-- Helper: `restart_timer` preserves timer-field consistency. -/
theorem restart_timer_consistent (t : Task) (now : ℚ) (nIso : String)
    (h : t.timer_start_time ≠ none → t.timer_running = true) :
    (restart_timer t now nIso).1.timer_start_time ≠ none →
      (restart_timer t now nIso).1.timer_running = true :=
  start_timer_consistent _ now nIso (stop_timer_consistent t now nIso h)

/-- Helper: `update_status` does not touch the timer fields. -/
theorem update_status_consistent (t : Task) (status nIso : String)
    (h : t.timer_start_time ≠ none → t.timer_running = true) :
    (update_status t status nIso).timer_start_time ≠ none →
      (update_status t status nIso).timer_running = true := by
  unfold update_status
  split
  · exact h
  · exact h

/-- C2 (amended): in every record state reachable through the record's own
operations and snapshot loading, the session start instant is present only
if the running flag is true. (The converse direction of the claimed "if and
only if" fails: see the counterexample, where a loaded record has
`timer_running = true` with no start instant.) -/
theorem reachable_timer_consistent {t : Task} (h : Reachable t) :
    t.timer_start_time ≠ none → t.timer_running = true := by
  induction h with
  | init tid title description project category estimated_hours deadline nIso =>
    intro hne; exact absurd rfl hne
  | add hours nIso _ ih => exact add_time_consistent _ hours nIso ih
  | start now nIso _ ih => exact start_timer_consistent _ now nIso ih
  | stop now nIso _ ih => exact stop_timer_consistent _ now nIso ih
  | restart now nIso _ ih => exact restart_timer_consistent _ now nIso ih
  | upd status nIso _ ih => exact update_status_consistent _ status nIso ih
  | load d => intro hne; exact absurd rfl hne

/-- Witness for C2's theorem at a concrete reachable state: a freshly
constructed task whose timer was started at epoch second 3600. -/
theorem reachable_timer_consistent_witness : startedTask.timer_running = true :=
  reachable_timer_consistent
    (Reachable.start 3600 "s" (Reachable.init "task_1" "t" "" "General" "General" 10 none "c"))
    (by decide)

/-- C2 (counterexample): the stuck state produced by saving a running task
and loading it back is reachable, yet has `timer_running = true` while
`timer_start_time = none`, refuting the claimed "if and only if". -/
theorem c2_invariant_counterexample :
    Reachable stuckTask ∧
    stuckTask.timer_running = true ∧
    stuckTask.timer_start_time = none :=
  ⟨Reachable.load (to_dict startedTask), rfl, rfl⟩

/-- C3 (counterexample): on the record obtained by saving a running task
and loading it back, the running flag is true, yet `stop_timer` returns 0,
changes nothing, and leaves `timer_running` true — refuting "in every case
timerRunning is false after stop()". -/
theorem c3_stop_counterexample :
    stuckTask.timer_running = true ∧
    stop_timer stuckTask 7200 "n" = (stuckTask, 0) ∧
    (stop_timer stuckTask 7200 "n").1.timer_running ≠ false :=
  ⟨rfl, rfl, by decide⟩

/-- C3 (amended): for every record in which the running flag implies a
recorded (non-zero-epoch) session start — which excludes only the stuck
states produced by loading a running snapshot — `stop_timer` behaves as
claimed: when running it adds the session's elapsed hours `(now − s)/3600`
to both `session_time` and `actual_hours`, clears the flag and the start,
stamps `updated_at` and returns the elapsed hours; when idle it returns 0
and changes nothing; and in every such case the flag is false afterwards. -/
theorem stop_timer_spec (t : Task) (now : ℚ) (nIso : String)
    (hwf : t.timer_running = true → ∃ s, t.timer_start_time = some s ∧ s ≠ 0) :
    (∀ s, t.timer_running = true → t.timer_start_time = some s →
      stop_timer t now nIso =
        ({ t with session_time := t.session_time + (now - s) / 3600
                  actual_hours := t.actual_hours + (now - s) / 3600
                  timer_running := false
                  timer_start_time := none
                  updated_at := nIso }, (now - s) / 3600))
    ∧ (t.timer_running = false → stop_timer t now nIso = (t, 0))
    ∧ (stop_timer t now nIso).1.timer_running = false := by
  refine ⟨?_, ?_, ?_⟩
  · intro s hrun hs
    obtain ⟨s', hs', hs'0⟩ := hwf hrun
    rw [hs] at hs'
    obtain rfl : s = s' := by injection hs'
    simp [stop_timer, hs, hrun, hs'0]
  · intro hidle
    cases hs : t.timer_start_time with
    | none => simp [stop_timer, hs]
    | some s => simp [stop_timer, hs, hidle]
  · cases hrun : t.timer_running with
    | false =>
      cases hs : t.timer_start_time with
      | none => simp [stop_timer, hs, hrun]
      | some s => simp [stop_timer, hs, hrun]
    | true =>
      obtain ⟨s, hs, hs0⟩ := hwf hrun
      simp [stop_timer, hs, hrun, hs0]

/-- Witness for C3's amended theorem at a concrete idle record. -/
theorem stop_timer_spec_witness :
    (stop_timer sampleTask 7200 "n").1.timer_running = false :=
  (stop_timer_spec sampleTask 7200 "n" (by simp [sampleTask])).2.2

/-- Helper: whatever `parseIsoDate` accepts is midnight at the start of the
parsed day — the time-of-day components are all zero. -/
theorem parseIsoDate_midnight (s : String) (dl : DateTime)
    (h : parseIsoDate s = some dl) :
    dl.hour = 0 ∧ dl.minute = 0 ∧ dl.second = 0 := by
  unfold parseIsoDate at h
  split at h
  · split at h
    · simp only [Option.bind_eq_bind, Option.bind_eq_some, Option.pure_def,
        Option.some.injEq] at h
      obtain ⟨y, hy, mo, hmo, da, hda, h⟩ := h
      split at h
      · obtain rfl : DateTime.mk y mo da 0 0 0 = dl := by injection h
        exact ⟨rfl, rfl, rfl⟩
      · exact absurd h (by simp)
    · exact absurd h (by simp)
  · exact absurd h (by simp)

/-- Helper: the empty string never parses as a deadline. -/
theorem parseIsoDate_empty_eq_none : parseIsoDate "" = none := rfl

/-- C4 (amended): `is_overdue` is false when the deadline is absent (or the
empty string), when the status is Completed, and when the deadline fails to
parse; otherwise it is true iff the current time is strictly after the
parsed deadline, where a date-only deadline denotes midnight at the START
of its day (all time-of-day components zero), not an end-of-day boundary. -/
theorem is_overdue_spec (t : Task) (nowDt : DateTime) :
    (t.deadline = none → is_overdue t nowDt = false)
    ∧ (t.status = "Completed" → is_overdue t nowDt = false)
    ∧ (∀ d, t.deadline = some d → parseIsoDate d = none → is_overdue t nowDt = false)
    ∧ (∀ d dl, t.deadline = some d → t.status ≠ "Completed" → parseIsoDate d = some dl →
        (is_overdue t nowDt = true ↔ dl.toKey < nowDt.toKey))
    ∧ (∀ d dl, parseIsoDate d = some dl → dl.hour = 0 ∧ dl.minute = 0 ∧ dl.second = 0) := by
  refine ⟨?_, ?_, ?_, ?_, fun d dl hp => parseIsoDate_midnight d dl hp⟩
  · intro hd
    simp [is_overdue, hd]
  · intro hst
    cases hd : t.deadline with
    | none => simp [is_overdue, hd]
    | some d => simp [is_overdue, hd, hst]
  · intro d hd hp
    by_cases hde : d.isEmpty ∨ t.status = "Completed"
    · simp [is_overdue, hd, hde]
    · simp [is_overdue, hd, hde, hp]
  · intro d dl hd hst hp
    have hde : ¬(d.isEmpty = true ∨ t.status = "Completed") := by
      rintro (he | hc)
      · rw [String.isEmpty_iff] at he
        rw [he, parseIsoDate_empty_eq_none] at hp
        exact absurd hp (by simp)
      · exact hst hc
    simp [is_overdue, hd, hde, hp]

/-- Witness for C4's amended theorem: a record with no deadline. -/
theorem is_overdue_spec_witness : is_overdue sampleTask middayJan15 = false :=
  (is_overdue_spec sampleTask middayJan15).1 rfl

/-- C4 (counterexample): a task with deadline `"2024-01-15"`, status
In Progress, observed at noon on 2024-01-15. `fromisoformat` parses the
date-only deadline as midnight at the START of that day, so the code
reports the task overdue at noon of the deadline day, while the claimed
end-of-day-boundary reading says it is not yet overdue. -/
theorem c4_end_of_day_counterexample :
    is_overdue overdueSampleTask middayJan15 = true ∧
    is_overdue_end_of_day overdueSampleTask middayJan15 = false :=
  ⟨by decide, by decide⟩

/-- C5: with a non-negative estimate and non-negative total time,
`get_progress_percentage` is 0 when the estimate is 0, equals
`min 100 (total/estimate × 100)` otherwise, and always lies in [0, 100],
including when the total exceeds the estimate. -/
theorem get_progress_percentage_spec (t : Task) (now : ℚ)
    (hest : 0 ≤ t.estimated_hours) (htot : 0 ≤ get_total_time t now) :
    (t.estimated_hours = 0 → get_progress_percentage t now = 0)
    ∧ (t.estimated_hours ≠ 0 →
        get_progress_percentage t now =
          min 100 (get_total_time t now / t.estimated_hours * 100))
    ∧ 0 ≤ get_progress_percentage t now
    ∧ get_progress_percentage t now ≤ 100 := by
  by_cases h0 : t.estimated_hours = 0
  · refine ⟨fun _ => by simp [get_progress_percentage, h0], fun hc => absurd h0 hc, ?_, ?_⟩
    · simp [get_progress_percentage, h0]
    · simp [get_progress_percentage, h0]
  · have hpos : 0 < t.estimated_hours := lt_of_le_of_ne hest (Ne.symm h0)
    have hq : 0 ≤ get_total_time t now / t.estimated_hours * 100 :=
      mul_nonneg (div_nonneg htot hpos.le) (by norm_num)
    refine ⟨fun hc => absurd hc h0, fun _ => by simp [get_progress_percentage, h0], ?_, ?_⟩
    · rw [get_progress_percentage, if_neg h0]
      exact le_min (by norm_num) hq
    · rw [get_progress_percentage, if_neg h0]
      exact min_le_left _ _

/-- Witness for C5's theorem at a concrete record (estimate 10 hours,
2 hours logged, timer idle). -/
theorem get_progress_percentage_spec_witness :
    0 ≤ get_progress_percentage sampleTask 0 ∧ get_progress_percentage sampleTask 0 ≤ 100 :=
  ⟨(get_progress_percentage_spec sampleTask 0 (by decide) (by decide)).2.2.1,
   (get_progress_percentage_spec sampleTask 0 (by decide) (by decide)).2.2.2⟩

/-- C6: `update_status` ignores any value outside the four valid statuses
(no state change at all); a transition into Completed stamps `completed_at`
with the current instant; every other accepted transition leaves
`completed_at` untouched; and `update_status` never clears a set
`completed_at`, in particular when status later moves away from Completed. -/
theorem update_status_spec (t : Task) (status nIso : String) :
    (status ∉ valid_statuses → update_status t status nIso = t)
    ∧ (status = "Completed" → (update_status t status nIso).completed_at = some nIso)
    ∧ (status ∈ valid_statuses → status ≠ "Completed" →
        (update_status t status nIso).completed_at = t.completed_at)
    ∧ (t.completed_at ≠ none → (update_status t status nIso).completed_at ≠ none) := by
  refine ⟨?_, ?_, ?_, ?_⟩
  · intro hnot
    simp [update_status, hnot]
  · intro hc
    subst hc
    simp [update_status, valid_statuses]
  · intro hin hne
    simp [update_status, hin, hne]
  · intro hsome
    by_cases hin : status ∈ valid_statuses
    · by_cases hc : status = "Completed"
      · subst hc
        simp [update_status, valid_statuses]
      · simpa [update_status, hin, hc] using hsome
    · simpa [update_status, hin] using hsome

/-- Witness for C6's theorem: an unrecognized status value is ignored. -/
theorem update_status_spec_witness :
    update_status sampleTask "Cancelled" "n" = sampleTask :=
  (update_status_spec sampleTask "Cancelled" "n").1 (by decide)

/-- C7: `add_time` with positive hours adds exactly those hours to
`actual_hours` and changes nothing else except `updated_at` — in
particular `timer_running`, `timer_start_time` and `session_time` are
untouched; with non-positive hours the record is entirely unchanged. -/
theorem add_time_spec (t : Task) (hours : ℚ) (nIso : String) :
    (0 < hours →
      add_time t hours nIso =
        { t with actual_hours := t.actual_hours + hours, updated_at := nIso })
    ∧ (hours ≤ 0 → add_time t hours nIso = t) := by
  constructor
  · intro h
    rw [add_time, if_pos h]
  · intro h
    rw [add_time, if_neg (not_lt.mpr h)]

/-- Witness for C7's theorem: one positive and one non-positive addition
on a concrete record. -/
theorem add_time_spec_witness :
    add_time sampleTask 1 "n" =
      { sampleTask with actual_hours := sampleTask.actual_hours + 1, updated_at := "n" }
    ∧ add_time sampleTask 0 "n" = sampleTask :=
  ⟨(add_time_spec sampleTask 1 "n").1 (by decide),
   (add_time_spec sampleTask 0 "n").2 (by decide)⟩

/-- C8: `get_statistics` returns the record count, the count of records
whose status is Completed (case-insensitively), the overdue count, the
running-timer count, the sums of `estimated_hours` and of `get_total_time`
over all records, and a completion rate of completed/total × 100, which is
0 on an empty store rather than a division fault. -/
theorem get_statistics_spec (tasks : List Task) (nowDt : DateTime) (now : ℚ) :
    (get_statistics tasks nowDt now).total_tasks = tasks.length
    ∧ (get_statistics tasks nowDt now).completed_tasks =
        tasks.countP (fun t => strLower t.status = strLower "Completed")
    ∧ (get_statistics tasks nowDt now).overdue_tasks =
        tasks.countP (fun t => is_overdue t nowDt)
    ∧ (get_statistics tasks nowDt now).running_timers =
        tasks.countP (fun t => t.timer_running)
    ∧ (get_statistics tasks nowDt now).total_estimated_hours =
        (tasks.map (fun t => t.estimated_hours)).sum
    ∧ (get_statistics tasks nowDt now).total_actual_hours =
        (tasks.map (fun t => get_total_time t now)).sum
    ∧ (tasks.length ≠ 0 →
        (get_statistics tasks nowDt now).completion_rate =
          ((get_statistics tasks nowDt now).completed_tasks : ℚ) / (tasks.length : ℚ) * 100)
    ∧ (tasks = [] →
        (get_statistics tasks nowDt now).total_tasks = 0 ∧
        (get_statistics tasks nowDt now).completion_rate = 0) := by
  refine ⟨rfl, (List.countP_eq_length_filter _ _).symm,
    (List.countP_eq_length_filter _ _).symm, (List.countP_eq_length_filter _ _).symm,
    rfl, rfl, ?_, ?_⟩
  · intro hne
    have hpos : 0 < tasks.length := Nat.pos_of_ne_zero hne
    show (if 0 < tasks.length then _ else _) = _
    rw [if_pos hpos]
    rfl
  · rintro rfl
    exact ⟨rfl, rfl⟩

/-- Witness for C8's theorem: the completion-rate formula on a one-element
store. -/
theorem get_statistics_spec_witness :
    (get_statistics [sampleTask] middayJan15 0).completion_rate =
      ((get_statistics [sampleTask] middayJan15 0).completed_tasks : ℚ) /
        (([sampleTask] : List Task).length : ℚ) * 100 :=
  (get_statistics_spec [sampleTask] middayJan15 0).2.2.2.2.2.2.1 (by decide)

/-- Helper: `update_task` applied to a list whose first id match is `t`
updates exactly `t` — it applies every change via `applyField`, stamps
`updated_at`, and reports success. -/
theorem update_task_first_match (pre : List Task) (post : List Task) (t : Task)
    (changes : List FieldUpdate) (nIso : String)
    (hpre : ∀ u ∈ pre, u.id ≠ t.id) :
    update_task (pre ++ t :: post) t.id changes nIso =
      (pre ++ { changes.foldl applyField t with updated_at := nIso } :: post, true) := by
  induction pre with
  | nil => simp [update_task]
  | cons u pre ih =>
    have hu : u.id ≠ t.id := hpre u (List.mem_cons_self u pre)
    have ih' := ih (fun x hx => hpre x (List.mem_cons_of_mem u hx))
    simp [update_task, hu, ih']

/-- C9: `update_task` assigns every supplied key/value pair whose key names
an existing attribute — here `id`, `actual_hours`, `timer_running` and
`created_at` — unconditionally and without validation to the first task
whose id matches; in particular it can set the task's `id` to a value
already used by another task, so the store's id-uniqueness is not
protected by `update_task`. -/
theorem update_task_spec (pre post : List Task) (t : Task) (v c nIso : String)
    (a : ℚ) (b : Bool) (hpre : ∀ u ∈ pre, u.id ≠ t.id) :
    (update_task (pre ++ t :: post) t.id
        [FieldUpdate.set_id v, FieldUpdate.set_actual_hours a,
         FieldUpdate.set_timer_running b, FieldUpdate.set_created_at c] nIso =
      (pre ++ { t with id := v, actual_hours := a, timer_running := b,
                       created_at := c, updated_at := nIso } :: post, true))
    ∧ ((∃ u ∈ pre ++ post, u.id = v) →
        ¬ ((pre ++ { t with id := v, actual_hours := a, timer_running := b,
                            created_at := c, updated_at := nIso } :: post).map
            Task.id).Nodup) := by
  constructor
  · rw [update_task_first_match pre post t _ nIso hpre]
    rfl
  · rintro ⟨u, hu, rfl⟩ hnodup
    rw [List.map_append, List.map_cons, List.nodup_append] at hnodup
    obtain ⟨-, hcons, hdisj⟩ := hnodup
    rcases List.mem_append.mp hu with hupre | hupost
    · exact hdisj (List.mem_map_of_mem Task.id hupre)
        (List.mem_cons_self _ _)
    · rw [List.nodup_cons] at hcons
      have hm : u.id ∈ post.map Task.id := List.mem_map_of_mem Task.id hupost
      exact hcons.1 hm

/-- Witness for C9's theorem: updating the second of two tasks to reuse the
first task's id succeeds and leaves the store with a duplicated id. -/
theorem update_task_spec_witness :
    ¬ ((update_task [sampleTask, startedTask] startedTask.id
          [FieldUpdate.set_id sampleTask.id, FieldUpdate.set_actual_hours 5,
           FieldUpdate.set_timer_running true, FieldUpdate.set_created_at "c2"] "n2").1.map
        Task.id).Nodup := by
  have h := update_task_spec [sampleTask] [] startedTask sampleTask.id "c2" "n2" 5 true
    (by decide)
  show ¬ ((update_task ([sampleTask] ++ startedTask :: []) startedTask.id
      [FieldUpdate.set_id sampleTask.id, FieldUpdate.set_actual_hours 5,
       FieldUpdate.set_timer_running true, FieldUpdate.set_created_at "c2"] "n2").1.map
      Task.id).Nodup
  rw [h.1]
  exact h.2 ⟨sampleTask, by simp, rfl⟩

/-- C10: calling `update_status` with Completed on a record whose status is
already Completed overwrites `completed_at` with the current instant
instead of preserving the original completion timestamp. -/
theorem update_status_completed_overwrites (t : Task) (c nIso : String)
    (_hst : t.status = "Completed") (hc : t.completed_at = some c) (hne : c ≠ nIso) :
    (update_status t "Completed" nIso).completed_at = some nIso ∧
    (update_status t "Completed" nIso).completed_at ≠ t.completed_at := by
  have h1 : (update_status t "Completed" nIso).completed_at = some nIso := by
    simp [update_status, valid_statuses]
  refine ⟨h1, ?_⟩
  rw [h1, hc]
  simp
  exact fun he => hne he.symm

/-- Witness for C10's theorem: a concrete task completed on 2024-01-02,
re-marked Completed on 2024-01-03. -/
theorem update_status_completed_overwrites_witness :
    (update_status completedTask "Completed" "2024-01-03T00:00:00").completed_at =
      some "2024-01-03T00:00:00" :=
  (update_status_completed_overwrites completedTask "2024-01-02T00:00:00"
    "2024-01-03T00:00:00" rfl rfl (by decide)).1

end TaskTimer
